import Mathlib

/-!
Verification of the multi-model CAD analysis orchestrator
(`backend/app/cad/multi_model_analyzer.py`).

The Python class `MultiModelCADAnalyzer` is shallowly embedded below.
External collaborators (the Gemini SDK, the OpenRouter HTTP endpoint,
PIL image decoding and base64 encoding) are modelled as an explicit
environment of pure functions (`Env`); a remote call either returns a
response text or the stringified raised exception (`Except String String`).
Python's `print` and `time.sleep` calls have no observable effect on the
returned data and are omitted.

Machine-specific details that matter to the claims are modelled
faithfully:
* Python `str.upper()` is modelled over the string's character data
  (`pyUpper`), Python truthiness of the optional credential by `pyTruthy`.
* The resize arithmetic of `preprocess_image` is performed by CPython in
  IEEE binary64 ("double") arithmetic.  `fl64` below is the exact
  round-to-nearest, ties-to-even rounding of a positive rational to 53
  significant bits (exponent range unbounded: every quantity appearing
  here is far from binary64 overflow and underflow), so
  `int(dim * (4096 / m))` is embedded as
  `(Int.floor (fl64 (dim * fl64 (4096 / m)))).toNat` - both the division
  and the multiplication are single correctly-rounded double operations,
  and `dim`, `m` (image pixel dimensions, far below 2 ^ 53) convert to
  double exactly.
-/

deriving instance DecidableEq for Except

/-- A catalogue entry of `MultiModelCADAnalyzer.MODELS`. -/
structure ModelDescriptor where
  name : String
  provider : String
  capabilities : List String
  free : Bool
  context : String
  notes : Option String := none
deriving DecidableEq

/-- The static model catalogue `MultiModelCADAnalyzer.MODELS`, in source
insertion order. -/
def MODELS : List (String × ModelDescriptor) :=
  [ ("gemini-2.5-flash",
     { name := "Gemini 2.5 Flash", provider := "gemini",
       capabilities := ["vision", "fast"], free := true, context := "1M tokens" }),
    ("gemini-2.5-pro",
     { name := "Gemini 2.5 Pro", provider := "gemini",
       capabilities := ["vision", "reasoning", "advanced"], free := false, context := "2M tokens" }),
    ("xiaomi/mimo-v2-flash:free",
     { name := "Xiaomi MiMo V2 Flash", provider := "openrouter",
       capabilities := ["vision", "fast"], free := true, context := "128K tokens",
       notes := some ("Fast multimodal, good for quick analysis") }),
    ("deepseek/deepseek-r1",
     { name := "DeepSeek R1", provider := "openrouter",
       capabilities := ["reasoning", "advanced"], free := false, context := "64K tokens",
       notes := some ("Excellent reasoning, chain-of-thought analysis") }),
    ("nvidia/nemotron-nano-12b-v2-vl:free",
     { name := "NVIDIA Nemotron Nano VL", provider := "openrouter",
       capabilities := ["vision", "technical"], free := true, context := "32K tokens",
       notes := some ("Optimized for technical diagrams") }),
    ("qwen/qwen3-235b-a22b",
     { name := "Qwen 3 235B", provider := "openrouter",
       capabilities := ["reasoning", "advanced"], free := false, context := "32K tokens",
       notes := some ("Large model, excellent for detailed analysis") }) ]

/-- Python `str.upper()` restricted to the character data (all strings
appearing in the analyzer are ASCII, where this is exact). -/
def pyUpper (s : String) : String :=
  String.mk (s.data.map Char.toUpper)

/-- Python truthiness of the optional credential: `None` and the empty
string are falsy, any other string is truthy. -/
def pyTruthy : Option String → Bool
  | none => false
  | some s => s != ""

/-- Prompt of the `overview` pass (`_get_overview_prompt`). -/
def get_overview_prompt : String :=
  "Analyze this CAD drawing and provide a comprehensive overview:\n\n1. **Drawing Type & Purpose**: What type of drawing is this? What is its primary purpose?\n2. **Overall Layout**: Describe the composition, organization, and structure.\n3. **Key Elements**: List the 5-10 most important elements visible.\n4. **Complexity**: Rate complexity (Simple/Moderate/Complex/Very Complex) and explain why.\n5. **Industry Context**: What industry would use this?\n\nBe detailed and technical."

/-- Prompt of the `technical` pass (`_get_technical_prompt`). -/
def get_technical_prompt : String :=
  "Provide detailed technical analysis:\n\n1. **Dimensions & Scale**: All visible dimensions, units, scale indicators\n2. **Line Types**: Different line types (solid, dashed, center, hidden)\n3. **Annotations**: All text, labels, callouts, title blocks\n4. **Symbols**: Standard symbols, drawing standards (ISO, ANSI, etc.)\n5. **Views**: Projection method, all views shown, section indicators\n\nBe extremely thorough."

/-- Prompt of the `components` pass (`_get_components_prompt`). -/
def get_components_prompt : String :=
  "Analyze components and features:\n\n1. **Component Inventory**: List every distinct component/part\n2. **Geometric Features**: Shapes, holes, slots, chamfers, fillets\n3. **Materials**: Material callouts, hatch patterns, finish indicators\n4. **Structure**: Assemblies, sub-assemblies, relationships\n5. **Special Features**: Unique or notable features\n\nProvide complete technical inventory."

/-- Prompt of the `measurements` pass (`_get_measurements_prompt`). -/
def get_measurements_prompt : String :=
  "Extract all measurements and specifications:\n\n1. **Dimensional Data**: ALL dimensions with units and tolerances\n2. **Critical Dimensions**: Most important dimensions\n3. **Coordinates**: Coordinate systems, datum references, grids\n4. **Quantities**: Counts, areas, volumes\n5. **Specifications**: Weights, capacities, ratings, quality requirements\n\nCreate comprehensive dimensional database."

/-- Prompt of the `quality` pass (`_get_quality_prompt`). -/
def get_quality_prompt : String :=
  "Assess quality and completeness:\n\n1. **Clarity**: Rate line clarity, text readability (1-10)\n2. **Completeness**: All necessary views, dimensions, details included?\n3. **Standards**: Follows drafting standards correctly?\n4. **Issues**: Errors, inconsistencies, conflicts, ambiguities\n5. **Recommendations**: Improvements needed\n\nProfessional quality assessment."

/-- `self.analysis_passes`: the fixed ordered pass table built in
`__init__` (a Python dict, iterated in insertion order). -/
def analysis_passes : List (String × String) :=
  [ ("overview", get_overview_prompt),
    ("technical", get_technical_prompt),
    ("components", get_components_prompt),
    ("measurements", get_measurements_prompt),
    ("quality", get_quality_prompt) ]

/-- A decoded PIL image: its mode string and pixel dimensions (the pixel
contents are irrelevant to every claim and are abstracted away). -/
structure PILImage where
  mode : String
  width : Nat
  height : Nat
deriving DecidableEq

/-- The re-encoded output of `preprocess_image`: container format, mode
and pixel dimensions of the image serialized into the returned bytes. -/
structure EncodedImage where
  format : String
  mode : String
  width : Nat
  height : Nat
deriving DecidableEq

/-- Round a rational to the nearest integer, ties to even (the IEEE 754
default rounding applied on an integer grid). -/
def rne (x : ℚ) : ℤ :=
  if x - Int.floor x < 1 / 2 then Int.floor x
  else if 1 / 2 < x - Int.floor x then Int.floor x + 1
  else if Int.floor x % 2 = 0 then Int.floor x else Int.floor x + 1

/-- IEEE binary64 rounding of a positive rational: round to 53
significant bits, round-to-nearest ties-to-even, unbounded exponent
(every value arising in `preprocess_image` is far from overflow and
underflow).  Nonpositive arguments are mapped to zero; they do not occur
in the uses below. -/
def fl64 (q : ℚ) : ℚ :=
  if 0 < q then
    (rne (q * 2 ^ ((52 : ℤ) - Int.log 2 q)) : ℚ) * 2 ^ (Int.log 2 q - (52 : ℤ))
  else 0

/-- One output dimension of the resize in `preprocess_image`:
`int(dim * (4096 / m))` evaluated in binary64 arithmetic, where `m` is
the longer side.  `4096 / m` is one correctly rounded double division and
`dim * _` one correctly rounded double multiplication; `int` truncates
(for these nonnegative values, the floor). -/
def pyResizeDim (dim m : Nat) : Nat :=
  (Int.floor (fl64 ((dim : ℚ) * fl64 ((4096 : ℚ) / (m : ℚ))))).toNat

/-- The `max_size` bound of `preprocess_image`. -/
def max_size : Nat := 4096

/-- `preprocess_image`: decode is handled by the caller (`Env.decode`);
this models the pure part - RGB conversion, the contrast enhancement
(which changes neither mode nor size and is otherwise abstract), the
conditional LANCZOS downscale, and the lossless PNG re-encoding. -/
def preprocess_image (img : PILImage) : EncodedImage :=
  let img1 := if img.mode ≠ "RGB"
    then { mode := "RGB", width := img.width, height := img.height }
    else img
  let m := max img1.width img1.height
  let resized := if max_size < m
    then { mode := img1.mode, width := pyResizeDim img1.width m,
           height := pyResizeDim img1.height m : PILImage }
    else img1
  { format := "PNG", mode := resized.mode, width := resized.width, height := resized.height }

/-- The analyzer state set up by `__init__`: the two credentials.  (The
Gemini SDK client object and the fixed OpenRouter base URL carry no
state that the claims observe.) -/
structure MultiModelCADAnalyzer where
  gemini_api_key : String
  openrouter_api_key : Option String
deriving DecidableEq

/-- `__init__`: the effective OpenRouter key is the constructor argument
if truthy, else the `OPENROUTER_API_KEY` environment variable
(`openrouter_api_key or os.getenv(...)`).  Construction is total: no
credential check happens here. -/
def analyzer_init (gemini_api_key : String) (openrouter_api_key : Option String)
    (env_openrouter_key : Option String) : MultiModelCADAnalyzer :=
  { gemini_api_key := gemini_api_key,
    openrouter_api_key :=
      if pyTruthy openrouter_api_key then openrouter_api_key else env_openrouter_key }

/-- One part of an OpenRouter chat message content array. -/
inductive ContentPart where
  | text : String → ContentPart
  | image_url : String → ContentPart
deriving DecidableEq

/-- OpenRouter message content: either a multimodal part array or a bare
string. -/
inductive MessageContent where
  | parts : List ContentPart → MessageContent
  | plain : String → MessageContent
deriving DecidableEq

/-- One OpenRouter chat message. -/
structure Message where
  role : String
  content : MessageContent
deriving DecidableEq

/-- The `messages` array built by `analyze_with_openrouter` from the
model id, the prompt and the base64 image payload: one user turn with
an embedded data URI when the registry lists the `vision` capability,
otherwise a text-only user turn paraphrasing the prompt. -/
def openrouter_messages (model_id prompt image_b64 : String) : List Message :=
  let capabilities := ((MODELS.lookup model_id).map
    (fun d => d.capabilities)).getD []
  if capabilities.contains "vision" then
    [ { role := "user",
        content := MessageContent.parts
          [ ContentPart.text prompt,
            ContentPart.image_url ("data:image/png;base64," ++ image_b64) ] } ]
  else
    [ { role := "user",
        content := MessageContent.plain
          ("Based on this CAD drawing analysis prompt:\n\n" ++ prompt ++
            "\n\nProvide a detailed technical response.") } ]

/-- The external world of one analysis run: PIL decoding, base64
encoding of the canonical PNG bytes, the Gemini SDK and the OpenRouter
HTTP endpoint.  A remote call returns either the extracted response text
or the stringified raised exception. -/
structure Env where
  decode : String → Except String PILImage
  b64 : EncodedImage → String
  geminiCall : EncodedImage → String → String → Except String String
  openrouterHttp : String → List Message → Except String String

/-- `analyze_with_gemini`: a single multimodal Gemini request with fixed
sampling parameters; the response (or raised error) comes from the
environment. -/
def analyze_with_gemini (env : Env) (image : EncodedImage) (prompt model_id : String) :
    Except String String :=
  env.geminiCall image prompt model_id

/-- `analyze_with_openrouter`: raises a configuration `ValueError` if the
optional credential is missing (checked at call time), otherwise base64
encodes the image, builds the message array and posts it. -/
def analyze_with_openrouter (a : MultiModelCADAnalyzer) (env : Env)
    (image : EncodedImage) (prompt model_id : String) : Except String String :=
  if pyTruthy a.openrouter_api_key then
    env.openrouterHttp model_id (openrouter_messages model_id prompt (env.b64 image))
  else
    Except.error ("OpenRouter API key not configured")

/-- Provider resolution in `comprehensive_analysis`:
`self.MODELS.get(model_id, {}).get('provider', 'gemini')`. -/
def providerOf (model_id : String) : String :=
  ((MODELS.lookup model_id).map (fun d => d.provider)).getD "gemini"

/-- The per-pass dispatch of `comprehensive_analysis`: the body of the
`try` block of one pass iteration.  An unknown provider tag raises a
`ValueError` inside that `try` block. -/
def passCall (a : MultiModelCADAnalyzer) (env : Env) (provider model_id : String)
    (image : EncodedImage) (prompt : String) : Except String String :=
  if provider = "gemini" then analyze_with_gemini env image prompt model_id
  else if provider = "openrouter" then analyze_with_openrouter a env image prompt model_id
  else Except.error ("Unknown provider: " ++ provider)

/-- The pass loop of `comprehensive_analysis`: each pass either appends
its text to `results['analyses']` (keyed by pass name, insertion order)
or appends a record to `results['errors']`; a failure never stops the
loop. -/
def runPasses (call : String → Except String String) :
    List (String × String) → List (String × String) × List (String × String)
  | [] => ([], [])
  | p :: rest =>
    match call p.2, runPasses call rest with
    | Except.ok t, (suc, err) => ((p.1, t) :: suc, err)
    | Except.error e, (suc, err) => (suc, (p.1, e) :: err)

/-- The `results['summary']` dict: `{}` at run start, and the structured
outcome written by `_generate_synthesis` when synthesis runs. -/
structure Summary where
  executive_summary : Option String := none
  total_analysis_length : Option Nat := none
  synthesis_success : Option Bool := none
  error : Option String := none
deriving DecidableEq

/-- The concatenation of successful pass outputs built at the top of
`_generate_synthesis`. -/
def combined_of (analyses : List (String × String)) : String :=
  String.intercalate "\n\n"
    (analyses.map (fun p => "=== " ++ pyUpper p.1 ++ " ===\n" ++ p.2))

/-- The synthesis prompt of `_generate_synthesis`. -/
def synthesis_prompt_of (combined : String) : String :=
  "Based on these CAD drawing analyses, create a concise executive summary:\n\n" ++
    combined ++
    "\n\nProvide:\n1. **Drawing Identity**: Type, purpose, application\n2. **Key Specifications**: Most critical dimensions/specs\n3. **Notable Features**: Top 5-7 important elements\n4. **Technical Assessment**: Quality and completeness rating\n5. **Critical Information**: Must-know details\n\nBe concise but complete."

/-- The adapter invocation inside `_generate_synthesis` (note the bare
`else`: any non-gemini provider is routed to OpenRouter there). -/
def synthesisCall (a : MultiModelCADAnalyzer) (env : Env)
    (analyses : List (String × String)) (model_id provider : String)
    (image : EncodedImage) : Except String String :=
  if provider = "gemini" then
    analyze_with_gemini env image (synthesis_prompt_of (combined_of analyses)) model_id
  else
    analyze_with_openrouter a env image (synthesis_prompt_of (combined_of analyses)) model_id

/-- `_generate_synthesis`: on success a structured outcome with the
summary text, the total input length and success flag true; on a raised
adapter error the fallback outcome with the fixed message, the error
description and success flag false.  (The string concatenations before
the inner `try` cannot raise, so the extra `except` around the call site
in `comprehensive_analysis` is unreachable and has no embedded
counterpart.) -/
def generate_synthesis (a : MultiModelCADAnalyzer) (env : Env)
    (analyses : List (String × String)) (model_id provider : String)
    (image : EncodedImage) : Summary :=
  match synthesisCall a env analyses model_id provider image with
  | Except.ok s =>
    { executive_summary := some s,
      total_analysis_length := some (combined_of analyses).length,
      synthesis_success := some true }
  | Except.error e =>
    { executive_summary := some ("Synthesis failed"),
      error := some e,
      synthesis_success := some false }

/-- The aggregate `results` dict returned by `comprehensive_analysis`. -/
structure AnalysisResults where
  image_path : String
  model_used : String
  model_info : Option ModelDescriptor
  analyses : List (String × String)
  summary : Summary
  errors : List (String × String)
deriving DecidableEq

/-- The body of `comprehensive_analysis` after the image decoded
successfully: run the five passes, then synthesize exactly when at least
one pass succeeded. -/
def buildResults (a : MultiModelCADAnalyzer) (env : Env)
    (png_path model_id : String) (img : PILImage) : AnalysisResults :=
  let image_bytes := preprocess_image img
  let provider := providerOf model_id
  let outcome := runPasses (passCall a env provider model_id image_bytes) analysis_passes
  let summary := if outcome.1.isEmpty then {}
    else generate_synthesis a env outcome.1 model_id provider image_bytes
  { image_path := png_path,
    model_used := model_id,
    model_info := MODELS.lookup model_id,
    analyses := outcome.1,
    summary := summary,
    errors := outcome.2 }

/-- `comprehensive_analysis`: `preprocess_image` decodes first and a
decode failure propagates to the caller; afterwards the run always
returns a result. -/
def comprehensive_analysis (a : MultiModelCADAnalyzer) (env : Env)
    (png_path model_id : String) : Except String AnalysisResults :=
  match env.decode png_path with
  | Except.error e => Except.error e
  | Except.ok img => Except.ok (buildResults a env png_path model_id img)

/-- `"=" * 80`. -/
def eq80 : String := String.mk (List.replicate 80 '=')

/-- `"-" * 80`. -/
def dash80 : String := String.mk (List.replicate 80 '-')

/-- The header lines of `format_for_rag` (banner and model identity). -/
def ragHeader (model_info : Option ModelDescriptor) : List String :=
  [ eq80, "COMPREHENSIVE CAD DRAWING ANALYSIS", eq80, "",
    "Model: " ++ ((model_info.map (fun d => d.name)).getD "Unknown"),
    "Provider: " ++ ((model_info.map (fun d => d.provider)).getD "Unknown"),
    "" ]

/-- The executive-summary block of `format_for_rag`: emitted whenever
`analysis_results['summary'].get('executive_summary')` is truthy (the
`'summary' in analysis_results` conjunct always holds for a result built
by `comprehensive_analysis`). -/
def ragSummaryBlock (s : Summary) : List String :=
  match s.executive_summary with
  | some t => if t = "" then [] else [ "EXECUTIVE SUMMARY", dash80, t, "" ]
  | none => []

/-- The per-pass section lines of `format_for_rag`, iterating the
outcome mapping in insertion order. -/
def ragPassSections (analyses : List (String × String)) : List String :=
  analyses.flatMap (fun p => [ "\n" ++ pyUpper p.1 ++ " ANALYSIS", dash80, p.2, "" ])

/-- All lines appended by `format_for_rag`, in order. -/
def ragLines (analysis_results : AnalysisResults) : List String :=
  ragHeader analysis_results.model_info ++
    ragSummaryBlock analysis_results.summary ++
    [ "DETAILED ANALYSES", eq80, "" ] ++
    ragPassSections analysis_results.analyses

/-- `format_for_rag`: the joined document. -/
def format_for_rag (analysis_results : AnalysisResults) : String :=
  String.intercalate "\n" (ragLines analysis_results)

/-- Modelled from the spec (§4.6), for the refinement comparison of
claim C2: the fixed-section document whose executive-summary section is
present exactly when the given condition on the synthesis outcome holds. -/
def ragLinesSpec (cond : Summary → Bool) (r : AnalysisResults) : List String :=
  ragHeader r.model_info ++
    (if cond r.summary then
      [ "EXECUTIVE SUMMARY", dash80, r.summary.executive_summary.getD "", "" ]
     else []) ++
    [ "DETAILED ANALYSES", eq80, "" ] ++
    ragPassSections r.analyses

/-- The section condition claim C2 states: synthesis succeeded and
produced non-empty text. -/
def specExecCond (s : Summary) : Bool :=
  s.synthesis_success == some true && s.executive_summary.getD "" != ""

/-- The section condition the code uses: the stored executive-summary
text is non-empty (true also for the fixed fallback text written when
synthesis fails). -/
def codeExecCond (s : Summary) : Bool :=
  s.executive_summary.getD "" != ""

/-- Whether an OpenRouter message carries an image payload. -/
def messageHasImage (m : Message) : Bool :=
  match m.content with
  | MessageContent.parts ps =>
    ps.any (fun part => match part with
      | ContentPart.image_url _ => true
      | ContentPart.text _ => false)
  | MessageContent.plain _ => false

/-- A small decodable test image (no resize needed). -/
def imgOk : PILImage := { mode := "RGB", width := 640, height := 480 }

/-- An analyzer with both credentials configured. -/
def analyzerBoth : MultiModelCADAnalyzer :=
  { gemini_api_key := "GK", openrouter_api_key := some "ORK" }

/-- An analyzer built with no OpenRouter credential anywhere. -/
def analyzerNoOR : MultiModelCADAnalyzer := analyzer_init "GK" none none

/-- An environment where decoding and every remote call succeed. -/
def envAllOk : Env :=
  { decode := fun _ => Except.ok imgOk,
    b64 := fun _ => "IMGB64",
    geminiCall := fun _ _ _ => Except.ok ("GEMINI RESPONSE"),
    openrouterHttp := fun _ _ => Except.ok ("OPENROUTER RESPONSE") }

/-- An environment where the five analysis prompts succeed but the
synthesis prompt raises. -/
def envSynthFails : Env :=
  { envAllOk with
    geminiCall := fun _ prompt _ =>
      if analysis_passes.any (fun p => p.2 == prompt) then Except.ok ("PASS RESPONSE")
      else Except.error ("synthesis transport error") }

/-- An environment where exactly the `technical` pass raises. -/
def envMixed : Env :=
  { envAllOk with
    geminiCall := fun _ prompt _ =>
      if prompt == get_technical_prompt
      then Except.error ("429 RESOURCE_EXHAUSTED: rate limit exceeded, please retry later")
      else Except.ok ("OK TEXT") }

/-- An environment whose image source cannot be decoded. -/
def envDecodeFails : Env :=
  { envAllOk with
    decode := fun _ => Except.error ("cannot identify image file") }

/-- The result of a run known to succeed (total extractor used to state
closed counterexamples). -/
def runOk (a : MultiModelCADAnalyzer) (env : Env) (png_path model_id : String) :
    AnalysisResults :=
  match comprehensive_analysis a env png_path model_id with
  | Except.ok r => r
  | Except.error _ =>
    { image_path := "", model_used := "", model_info := none,
      analyses := [], summary := {}, errors := [] }

set_option maxRecDepth 10000

/-- The successful side of the pass loop is the list of pass/text pairs
of the succeeding calls, in pass order. -/
theorem runPasses_fst_eq (call : String → Except String String)
    (ps : List (String × String)) :
    (runPasses call ps).1 = ps.filterMap (fun p =>
      match call p.2 with
      | Except.ok t => some (p.1, t)
      | Except.error _ => none) := by
  induction ps with
  | nil => rfl
  | cons p rest ih =>
    cases h : call p.2 <;> simp [runPasses, h, ih]

/-- The failure side of the pass loop is the list of pass/error pairs of
the raising calls, in pass order, each carrying the full error string. -/
theorem runPasses_snd_eq (call : String → Except String String)
    (ps : List (String × String)) :
    (runPasses call ps).2 = ps.filterMap (fun p =>
      match call p.2 with
      | Except.ok _ => none
      | Except.error e => some (p.1, e)) := by
  induction ps with
  | nil => rfl
  | cons p rest ih =>
    cases h : call p.2 <;> simp [runPasses, h, ih]

/-- Every attempted pass lands in exactly one of the two collections. -/
theorem runPasses_names (call : String → Except String String)
    (ps : List (String × String)) (n : String) :
    (n ∈ (runPasses call ps).1.map Prod.fst ∨ n ∈ (runPasses call ps).2.map Prod.fst) ↔
      n ∈ ps.map Prod.fst := by
  rw [runPasses_fst_eq, runPasses_snd_eq]
  constructor
  · intro h
    rcases h with h | h <;>
    · rw [List.mem_map] at h
      obtain ⟨q, hq, hn⟩ := h
      rw [List.mem_filterMap] at hq
      obtain ⟨p, hp, hf⟩ := hq
      rw [List.mem_map]
      refine ⟨p, hp, ?_⟩
      cases hc : call p.2 <;> rw [hc] at hf <;> cases hf <;> simpa using hn
  · intro h
    rw [List.mem_map] at h
    obtain ⟨p, hp, hn⟩ := h
    cases hc : call p.2 with
    | ok t =>
      left
      rw [List.mem_map]
      exact ⟨(p.1, t), List.mem_filterMap.mpr ⟨p, hp, by rw [hc]⟩, hn⟩
    | error e =>
      right
      rw [List.mem_map]
      exact ⟨(p.1, e), List.mem_filterMap.mpr ⟨p, hp, by rw [hc]⟩, hn⟩

/-- With distinct pass names, the two collections are disjoint. -/
theorem runPasses_disjoint (call : String → Except String String)
    (ps : List (String × String)) (hnd : (ps.map Prod.fst).Nodup) (n : String)
    (h1 : n ∈ (runPasses call ps).1.map Prod.fst) :
    n ∉ (runPasses call ps).2.map Prod.fst := by
  intro h2
  rw [runPasses_fst_eq] at h1
  rw [runPasses_snd_eq] at h2
  rw [List.mem_map] at h1 h2
  obtain ⟨q1, hq1, hn1⟩ := h1
  obtain ⟨q2, hq2, hn2⟩ := h2
  rw [List.mem_filterMap] at hq1 hq2
  obtain ⟨p1, hp1, hf1⟩ := hq1
  obtain ⟨p2, hp2, hf2⟩ := hq2
  cases hc1 : call p1.2 with
  | error e => rw [hc1] at hf1; cases hf1
  | ok t =>
    cases hc2 : call p2.2 with
    | ok u => rw [hc2] at hf2; cases hf2
    | error e =>
      rw [hc1] at hf1
      rw [hc2] at hf2
      have hq1v : q1 = (p1.1, t) := (Option.some_inj.mp hf1).symm
      have hq2v : q2 = (p2.1, e) := (Option.some_inj.mp hf2).symm
      have hfst : p1.1 = p2.1 := by
        rw [hq1v] at hn1
        rw [hq2v] at hn2
        simp at hn1 hn2
        rw [hn1, hn2]
      have hpp : p1 = p2 :=
        List.inj_on_of_nodup_map hnd hp1 hp2 hfst
      rw [hpp] at hc1
      rw [hc1] at hc2
      cases hc2

/-- The two collections together cover the attempted-pass count. -/
theorem runPasses_length (call : String → Except String String)
    (ps : List (String × String)) :
    (runPasses call ps).1.length + (runPasses call ps).2.length = ps.length := by
  induction ps with
  | nil => rfl
  | cons p rest ih =>
    cases h : call p.2 <;> simp [runPasses, h] <;> omega

/-- If every call raises the same error, the pass loop collects no
success and one failure per pass. -/
theorem runPasses_const_error (call : String → Except String String) (msg : String)
    (hc : ∀ prompt, call prompt = Except.error msg) (ps : List (String × String)) :
    runPasses call ps = ([], ps.map (fun p => (p.1, msg))) := by
  induction ps with
  | nil => rfl
  | cons p rest ih => simp [runPasses, hc p.2, ih]

/-- Inversion: a successful run means the image decoded and the result
is the one built by the pipeline body. -/
theorem comprehensive_analysis_ok {a : MultiModelCADAnalyzer} {env : Env}
    {png_path model_id : String} {r : AnalysisResults}
    (h : comprehensive_analysis a env png_path model_id = Except.ok r) :
    ∃ img, env.decode png_path = Except.ok img ∧
      r = buildResults a env png_path model_id img := by
  unfold comprehensive_analysis at h
  cases hd : env.decode png_path with
  | error e => rw [hd] at h; cases h
  | ok img =>
    rw [hd] at h
    exact ⟨img, rfl, (Except.ok.inj h).symm⟩

/-- The synthesis stage always records an executive-summary text. -/
theorem generate_synthesis_isSome (a : MultiModelCADAnalyzer) (env : Env)
    (analyses : List (String × String)) (model_id provider : String)
    (image : EncodedImage) :
    (generate_synthesis a env analyses model_id provider image).executive_summary.isSome ∧
    (generate_synthesis a env analyses model_id provider image).synthesis_success.isSome := by
  unfold generate_synthesis
  cases synthesisCall a env analyses model_id provider image <;> simp

/-- The pass names are pairwise distinct. -/
theorem analysis_passes_nodup : (analysis_passes.map Prod.fst).Nodup := by decide

/-- C3: in every completed run the outcome mapping and the failure list
are disjoint by pass name, every attempted pass appears in exactly one
of the two, together they cover the 5 attempted passes, and the outcome
mapping never holds more than the 5 fixed passes. -/
theorem c3_partition (a : MultiModelCADAnalyzer) (env : Env)
    (png_path model_id : String) (r : AnalysisResults)
    (h : comprehensive_analysis a env png_path model_id = Except.ok r) :
    (∀ n, n ∈ r.analyses.map Prod.fst → n ∉ r.errors.map Prod.fst) ∧
    (∀ n, (n ∈ r.analyses.map Prod.fst ∨ n ∈ r.errors.map Prod.fst) ↔
      n ∈ analysis_passes.map Prod.fst) ∧
    r.analyses.length + r.errors.length = analysis_passes.length ∧
    r.analyses.length ≤ 5 := by
  obtain ⟨img, hdec, rfl⟩ := comprehensive_analysis_ok h
  have hA : (buildResults a env png_path model_id img).analyses =
      (runPasses (passCall a env (providerOf model_id) model_id
        (preprocess_image img)) analysis_passes).1 := rfl
  have hE : (buildResults a env png_path model_id img).errors =
      (runPasses (passCall a env (providerOf model_id) model_id
        (preprocess_image img)) analysis_passes).2 := rfl
  rw [hA, hE]
  refine ⟨?_, ?_, ?_, ?_⟩
  · exact fun n h1 => runPasses_disjoint _ _ analysis_passes_nodup n h1
  · exact fun n => runPasses_names _ _ n
  · exact runPasses_length _ _
  · have h5 := runPasses_length (passCall a env (providerOf model_id) model_id
      (preprocess_image img)) analysis_passes
    have : analysis_passes.length = 5 := rfl
    omega

/-- Witness for C3 at a concrete run in which the `technical` pass
fails and the other four succeed. -/
theorem c3_partition_witness :
    comprehensive_analysis analyzerBoth envMixed "d.png" "gemini-2.5-flash" =
      Except.ok (runOk analyzerBoth envMixed "d.png" "gemini-2.5-flash") ∧
    (runOk analyzerBoth envMixed "d.png" "gemini-2.5-flash").analyses.length +
      (runOk analyzerBoth envMixed "d.png" "gemini-2.5-flash").errors.length =
        analysis_passes.length := by
  refine ⟨by decide, ?_⟩
  exact (c3_partition analyzerBoth envMixed "d.png" "gemini-2.5-flash"
    (runOk analyzerBoth envMixed "d.png" "gemini-2.5-flash") (by decide)).2.2.1

/-- C4: synthesis is attempted if and only if at least one pass
succeeded; with zero successes the summary stays the empty dict (in
particular no failure flag is recorded), with at least one success the
summary is exactly the synthesis-stage outcome. -/
theorem c4_synthesis_iff (a : MultiModelCADAnalyzer) (env : Env)
    (png_path model_id : String) (r : AnalysisResults) (img : PILImage)
    (hdec : env.decode png_path = Except.ok img)
    (h : comprehensive_analysis a env png_path model_id = Except.ok r) :
    (r.analyses = [] ↔ r.summary = ({} : Summary)) ∧
    (r.analyses ≠ [] →
      r.summary = generate_synthesis a env r.analyses model_id (providerOf model_id)
        (preprocess_image img) ∧
      r.summary.synthesis_success.isSome) ∧
    (r.analyses = [] → r.summary.synthesis_success = none) := by
  obtain ⟨img2, hdec2, rfl⟩ := comprehensive_analysis_ok h
  have himg : img2 = img := by
    rw [hdec] at hdec2
    exact (Except.ok.inj hdec2).symm
  subst himg
  have hana : (buildResults a env png_path model_id img2).analyses =
      (runPasses (passCall a env (providerOf model_id) model_id
        (preprocess_image img2)) analysis_passes).1 := rfl
  have hsum : (buildResults a env png_path model_id img2).summary =
      if (runPasses (passCall a env (providerOf model_id) model_id
          (preprocess_image img2)) analysis_passes).1.isEmpty
      then ({} : Summary)
      else generate_synthesis a env
        (runPasses (passCall a env (providerOf model_id) model_id
          (preprocess_image img2)) analysis_passes).1 model_id
        (providerOf model_id) (preprocess_image img2) := rfl
  cases houtcome : (runPasses (passCall a env (providerOf model_id) model_id
      (preprocess_image img2)) analysis_passes).1 with
  | nil =>
    rw [houtcome] at hana hsum
    simp only [List.isEmpty_nil, if_true] at hsum
    refine ⟨⟨fun _ => hsum, fun _ => hana⟩, fun hne => absurd hana hne, fun _ => by
      rw [hsum]⟩
  | cons q rest =>
    rw [houtcome] at hana hsum
    rw [List.isEmpty_cons, if_neg (by decide : ¬(false = true))] at hsum
    have hne : (buildResults a env png_path model_id img2).analyses ≠ [] := by
      rw [hana]
      exact List.cons_ne_nil q rest
    have hsome : (buildResults a env png_path model_id img2).summary.synthesis_success.isSome := by
      rw [hsum]
      exact (generate_synthesis_isSome a env (q :: rest) model_id
        (providerOf model_id) (preprocess_image img2)).2
    refine ⟨⟨fun he => absurd he hne, fun hs => ?_⟩,
      fun _ => ⟨by rw [hana]; exact hsum, hsome⟩, fun he => absurd he hne⟩
    exfalso
    rw [hs] at hsome
    cases hsome

/-- Witness for C4: a run in which all five passes succeed, so the
summary is the (recorded) synthesis outcome, and the nonempty outcome
mapping matches. -/
theorem c4_synthesis_iff_witness :
    ((runOk analyzerBoth envAllOk "d.png" "gemini-2.5-flash").analyses = [] ↔
      (runOk analyzerBoth envAllOk "d.png" "gemini-2.5-flash").summary = ({} : Summary)) ∧
    (runOk analyzerBoth envAllOk "d.png" "gemini-2.5-flash").summary =
      generate_synthesis analyzerBoth envAllOk
        (runOk analyzerBoth envAllOk "d.png" "gemini-2.5-flash").analyses
        "gemini-2.5-flash" (providerOf "gemini-2.5-flash") (preprocess_image imgOk) := by
  have h := c4_synthesis_iff analyzerBoth envAllOk "d.png" "gemini-2.5-flash"
    (runOk analyzerBoth envAllOk "d.png" "gemini-2.5-flash") imgOk (by decide) (by decide)
  exact ⟨h.1, (h.2.1 (by decide)).1⟩

/-- C5: the run propagates an exception to its caller exactly on image
decode failure; otherwise it returns a result in which every raising
pass is recorded with its pass name and the full stringified error, all
five passes having been attempted. -/
theorem c5_error_containment (a : MultiModelCADAnalyzer) (env : Env)
    (png_path model_id : String) :
    (∀ e, comprehensive_analysis a env png_path model_id = Except.error e ↔
      env.decode png_path = Except.error e) ∧
    (∀ img, env.decode png_path = Except.ok img →
      comprehensive_analysis a env png_path model_id =
        Except.ok (buildResults a env png_path model_id img) ∧
      (buildResults a env png_path model_id img).errors =
        analysis_passes.filterMap (fun p =>
          match passCall a env (providerOf model_id) model_id (preprocess_image img) p.2 with
          | Except.ok _ => none
          | Except.error e => some (p.1, e)) ∧
      (buildResults a env png_path model_id img).analyses.length +
        (buildResults a env png_path model_id img).errors.length =
          analysis_passes.length) := by
  constructor
  · intro e
    unfold comprehensive_analysis
    cases hd : env.decode png_path with
    | error e2 => simp only [Except.error.injEq]
    | ok img => simp
  · intro img hd
    refine ⟨by unfold comprehensive_analysis; rw [hd], ?_, ?_⟩
    · exact runPasses_snd_eq _ _
    · exact runPasses_length _ _

/-- Witness for C5: a decode failure propagates as-is, and a concrete
run records the one raising pass with its untruncated error message. -/
theorem c5_error_containment_witness :
    comprehensive_analysis analyzerBoth envDecodeFails "bad.png" "gemini-2.5-flash" =
      Except.error ("cannot identify image file") ∧
    (buildResults analyzerBoth envMixed "d.png" "gemini-2.5-flash" imgOk).errors =
      [("technical", "429 RESOURCE_EXHAUSTED: rate limit exceeded, please retry later")] := by
  constructor
  · exact ((c5_error_containment analyzerBoth envDecodeFails "bad.png" "gemini-2.5-flash").1
      ("cannot identify image file")).mpr (by decide)
  · have h := ((c5_error_containment analyzerBoth envMixed "d.png" "gemini-2.5-flash").2
      imgOk (by decide)).2.1
    rw [h]
    decide

/-- C6: with the optional credential absent, construction succeeds, and
a run over a chat-completions model records exactly five failures each
carrying the missing-credential message; no pass succeeds, synthesis is
skipped (summary stays the empty dict), and the rendered report has no
summary block and no analysis sections. -/
theorem c6_missing_credential (a : MultiModelCADAnalyzer) (env : Env)
    (png_path model_id : String) (d : ModelDescriptor) (img : PILImage)
    (hkey : pyTruthy a.openrouter_api_key = false)
    (hd : MODELS.lookup model_id = some d)
    (hprov : d.provider = "openrouter")
    (hdec : env.decode png_path = Except.ok img) :
    comprehensive_analysis a env png_path model_id =
      Except.ok (buildResults a env png_path model_id img) ∧
    (buildResults a env png_path model_id img).analyses = [] ∧
    (buildResults a env png_path model_id img).errors =
      analysis_passes.map (fun p => (p.1, "OpenRouter API key not configured")) ∧
    (buildResults a env png_path model_id img).errors.length = 5 ∧
    (buildResults a env png_path model_id img).summary = ({} : Summary) ∧
    ragSummaryBlock (buildResults a env png_path model_id img).summary = [] ∧
    ragPassSections (buildResults a env png_path model_id img).analyses = [] := by
  have hpo : providerOf model_id = "openrouter" := by
    simp [providerOf, hd, hprov]
  have hcall : ∀ prompt, passCall a env (providerOf model_id) model_id
      (preprocess_image img) prompt = Except.error ("OpenRouter API key not configured") := by
    intro prompt
    rw [hpo]
    unfold passCall analyze_with_openrouter
    rw [if_neg (by decide : ¬("openrouter" = "gemini")), if_pos rfl, hkey]
    rfl
  have hrp := runPasses_const_error _ _ hcall analysis_passes
  have hana : (buildResults a env png_path model_id img).analyses = [] := by
    have : (buildResults a env png_path model_id img).analyses =
      (runPasses (passCall a env (providerOf model_id) model_id
        (preprocess_image img)) analysis_passes).1 := rfl
    rw [this, hrp]
  have herr : (buildResults a env png_path model_id img).errors =
      analysis_passes.map (fun p => (p.1, "OpenRouter API key not configured")) := by
    have : (buildResults a env png_path model_id img).errors =
      (runPasses (passCall a env (providerOf model_id) model_id
        (preprocess_image img)) analysis_passes).2 := rfl
    rw [this, hrp]
  have hsum : (buildResults a env png_path model_id img).summary = ({} : Summary) := by
    have h0 : (buildResults a env png_path model_id img).summary =
      if (runPasses (passCall a env (providerOf model_id) model_id
          (preprocess_image img)) analysis_passes).1.isEmpty
      then ({} : Summary)
      else generate_synthesis a env
        (runPasses (passCall a env (providerOf model_id) model_id
          (preprocess_image img)) analysis_passes).1 model_id
        (providerOf model_id) (preprocess_image img) := rfl
    rw [h0, hrp]
    rfl
  refine ⟨by unfold comprehensive_analysis; rw [hdec], hana, herr, by rw [herr]; rfl,
    hsum, by rw [hsum]; rfl, by rw [hana]; rfl⟩

/-- Witness for C6 at the DeepSeek R1 model with an analyzer built from
no credential (argument and environment both absent). -/
theorem c6_missing_credential_witness :
    pyTruthy analyzerNoOR.openrouter_api_key = false ∧
    comprehensive_analysis analyzerNoOR envAllOk "d.png" "deepseek/deepseek-r1" =
      Except.ok (buildResults analyzerNoOR envAllOk "d.png" "deepseek/deepseek-r1" imgOk) ∧
    (buildResults analyzerNoOR envAllOk "d.png" "deepseek/deepseek-r1" imgOk).errors.length = 5 ∧
    (buildResults analyzerNoOR envAllOk "d.png" "deepseek/deepseek-r1" imgOk).analyses = [] := by
  have h := c6_missing_credential analyzerNoOR envAllOk "d.png" "deepseek/deepseek-r1"
    { name := "DeepSeek R1", provider := "openrouter",
      capabilities := ["reasoning", "advanced"], free := false, context := "64K tokens",
      notes := some ("Excellent reasoning, chain-of-thought analysis") }
    imgOk (by decide) (by decide) rfl (by decide)
  exact ⟨by decide, h.1, h.2.2.2.1, h.2.1⟩

/-- C9: when synthesis is attempted and the adapter call raises, the run
still completes, the completed pass outcomes are all returned, and the
recorded synthesis outcome carries the fixed fallback message, the error
description and success flag false. -/
theorem c9_synthesis_failure (a : MultiModelCADAnalyzer) (env : Env)
    (png_path model_id : String) (r : AnalysisResults) (img : PILImage) (e : String)
    (hdec : env.decode png_path = Except.ok img)
    (h : comprehensive_analysis a env png_path model_id = Except.ok r)
    (hne : r.analyses ≠ [])
    (hfail : synthesisCall a env r.analyses model_id (providerOf model_id)
      (preprocess_image img) = Except.error e) :
    r.summary = { executive_summary := some ("Synthesis failed"),
                  error := some e, synthesis_success := some false } ∧
    r.analyses = analysis_passes.filterMap (fun p =>
      match passCall a env (providerOf model_id) model_id (preprocess_image img) p.2 with
      | Except.ok t => some (p.1, t)
      | Except.error _ => none) := by
  have hsum := (c4_synthesis_iff a env png_path model_id r img hdec h).2.1 hne
  have hana : r.analyses = analysis_passes.filterMap (fun p =>
      match passCall a env (providerOf model_id) model_id (preprocess_image img) p.2 with
      | Except.ok t => some (p.1, t)
      | Except.error _ => none) := by
    obtain ⟨img2, hdec2, rfl⟩ := comprehensive_analysis_ok h
    have himg : img2 = img := by
      rw [hdec] at hdec2
      exact (Except.ok.inj hdec2).symm
    subst himg
    exact runPasses_fst_eq _ _
  refine ⟨?_, hana⟩
  rw [hsum.1]
  unfold generate_synthesis
  rw [hfail]

/-- Witness for C9: the concrete run in which all five passes succeed
and the synthesis call raises a transport error. -/
theorem c9_synthesis_failure_witness :
    (runOk analyzerBoth envSynthFails "d.png" "gemini-2.5-flash").summary =
      { executive_summary := some ("Synthesis failed"),
        error := some ("synthesis transport error"), synthesis_success := some false } := by
  exact (c9_synthesis_failure analyzerBoth envSynthFails "d.png" "gemini-2.5-flash"
    (runOk analyzerBoth envSynthFails "d.png" "gemini-2.5-flash") imgOk
    ("synthesis transport error") (by decide) (by decide) (by decide) (by decide)).1

/-- C1 is false on the code: for a model id absent from the registry the
run does not abort before pass 1 - it returns an `AnalysisResult` with
all five passes executed (the provider was silently defaulted). -/
theorem c1_counterexample :
    MODELS.lookup "unknown-model" = none ∧
    comprehensive_analysis analyzerBoth envAllOk "drawing.png" "unknown-model" =
      Except.ok (runOk analyzerBoth envAllOk "drawing.png" "unknown-model") ∧
    (runOk analyzerBoth envAllOk "drawing.png" "unknown-model").analyses.length = 5 := by
  decide

/-- C1 amended: an absent descriptor is not a fatal configuration error;
the provider silently defaults to `gemini` and the run proceeds and
returns a result.  An unrecognized provider tag in a descriptor would
not abort the run either: the `ValueError` is raised inside the per-pass
`try` block, so it would be recorded as a per-pass failure. -/
theorem c1_amended (a : MultiModelCADAnalyzer) (env : Env)
    (png_path model_id : String) (img : PILImage)
    (habs : MODELS.lookup model_id = none)
    (hdec : env.decode png_path = Except.ok img) :
    comprehensive_analysis a env png_path model_id =
      Except.ok (buildResults a env png_path model_id img) ∧
    providerOf model_id = "gemini" ∧
    (∀ provider, provider ≠ "gemini" → provider ≠ "openrouter" →
      ∀ image prompt, passCall a env provider model_id image prompt =
        Except.error ("Unknown provider: " ++ provider)) := by
  refine ⟨by unfold comprehensive_analysis; rw [hdec], ?_, ?_⟩
  · simp [providerOf, habs]
  · intro provider h1 h2 image prompt
    unfold passCall
    rw [if_neg h1, if_neg h2]

/-- Witness for C1 amended at a concrete unknown model id. -/
theorem c1_amended_witness :
    MODELS.lookup "unknown-model" = none ∧
    comprehensive_analysis analyzerBoth envAllOk "drawing.png" "unknown-model" =
      Except.ok (buildResults analyzerBoth envAllOk "drawing.png" "unknown-model" imgOk) ∧
    providerOf "unknown-model" = "gemini" := by
  have h := c1_amended analyzerBoth envAllOk "drawing.png" "unknown-model" imgOk
    (by decide) (by decide)
  exact ⟨by decide, h.1, h.2.1⟩

/-- C2 is false on the code: in a run whose synthesis failed, the
rendered report still contains an executive-summary section (holding
the fallback text), differing from the document the spec describes. -/
theorem c2_counterexample :
    (runOk analyzerBoth envSynthFails "d.png" "gemini-2.5-flash").summary.synthesis_success =
      some false ∧
    "EXECUTIVE SUMMARY" ∈ ragLines (runOk analyzerBoth envSynthFails "d.png" "gemini-2.5-flash") ∧
    ragLines (runOk analyzerBoth envSynthFails "d.png" "gemini-2.5-flash") ≠
      ragLinesSpec specExecCond (runOk analyzerBoth envSynthFails "d.png" "gemini-2.5-flash") := by
  decide

/-- C2 amended: the report equals the fixed-section document whose
executive-summary section is present exactly when the stored
executive-summary text is non-empty (which also holds for the fallback
text written on synthesis failure); one titled section per successful
pass in insertion order is part of that document shape; the rendering
never depends on the failure list. -/
theorem c2_amended (r : AnalysisResults) :
    ragLines r = ragLinesSpec codeExecCond r ∧
    (∀ es, format_for_rag { r with errors := es } = format_for_rag r) ∧
    (∀ a env analyses model_id provider image e,
      synthesisCall a env analyses model_id provider image = Except.error e →
      codeExecCond (generate_synthesis a env analyses model_id provider image) = true) ∧
    (codeExecCond r.summary = true → "EXECUTIVE SUMMARY" ∈ ragLines r) := by
  have hblock : ragSummaryBlock r.summary =
      if codeExecCond r.summary then
        [ "EXECUTIVE SUMMARY", dash80, r.summary.executive_summary.getD "", "" ]
      else [] := by
    unfold ragSummaryBlock codeExecCond
    cases hexec : r.summary.executive_summary with
    | none => rfl
    | some t =>
      by_cases ht : t = ""
      · simp [ht]
      · simp [ht]
  have hmain : ragLines r = ragLinesSpec codeExecCond r := by
    unfold ragLines ragLinesSpec
    rw [hblock]
  refine ⟨hmain, fun es => rfl, ?_, ?_⟩
  · intro a env analyses model_id provider image e hfail
    unfold generate_synthesis
    rw [hfail]
    rfl
  · intro hcond
    rw [hmain]
    unfold ragLinesSpec
    rw [if_pos hcond]
    simp

/-- Witness for C2 amended at a concrete fully successful run. -/
theorem c2_amended_witness :
    ragLines (runOk analyzerBoth envAllOk "d.png" "gemini-2.5-flash") =
      ragLinesSpec codeExecCond (runOk analyzerBoth envAllOk "d.png" "gemini-2.5-flash") ∧
    "EXECUTIVE SUMMARY" ∈ ragLines (runOk analyzerBoth envAllOk "d.png" "gemini-2.5-flash") := by
  have h := c2_amended (runOk analyzerBoth envAllOk "d.png" "gemini-2.5-flash")
  exact ⟨h.1, h.2.2.2 (by decide)⟩

/-- C7: the chat-completions request body embeds the image as a base64
data URI alongside the prompt in one user turn exactly when the
descriptor capability set has `vision`; otherwise the single user
message is text-only and no message carries an image payload. -/
theorem c7_vision_gating (model_id prompt image_b64 : String) :
    ("vision" ∈ ((MODELS.lookup model_id).map (fun d => d.capabilities)).getD [] →
      openrouter_messages model_id prompt image_b64 =
        [ { role := "user",
            content := MessageContent.parts
              [ ContentPart.text prompt,
                ContentPart.image_url ("data:image/png;base64," ++ image_b64) ] } ]) ∧
    ("vision" ∉ ((MODELS.lookup model_id).map (fun d => d.capabilities)).getD [] →
      openrouter_messages model_id prompt image_b64 =
        [ { role := "user",
            content := MessageContent.plain
              ("Based on this CAD drawing analysis prompt:\n\n" ++ prompt ++
                "\n\nProvide a detailed technical response.") } ] ∧
      ∀ m ∈ openrouter_messages model_id prompt image_b64, messageHasImage m = false) := by
  have hc : (((MODELS.lookup model_id).map (fun d => d.capabilities)).getD []).contains
      "vision" = true ↔
      "vision" ∈ ((MODELS.lookup model_id).map (fun d => d.capabilities)).getD [] := by
    simp
  constructor
  · intro hv
    unfold openrouter_messages
    rw [if_pos (hc.mpr hv)]
  · intro hv
    have hmsg : openrouter_messages model_id prompt image_b64 =
        [ { role := "user",
            content := MessageContent.plain
              ("Based on this CAD drawing analysis prompt:\n\n" ++ prompt ++
                "\n\nProvide a detailed technical response.") } ] := by
      unfold openrouter_messages
      rw [if_neg (fun hcon => hv (hc.mp hcon))]
    refine ⟨hmsg, ?_⟩
    intro m hm
    rw [hmsg] at hm
    rw [List.mem_singleton] at hm
    subst hm
    rfl

/-- Witness for C7 at a vision-capable model (Xiaomi MiMo) and a
text-only model (DeepSeek R1). -/
theorem c7_vision_gating_witness :
    openrouter_messages "xiaomi/mimo-v2-flash:free" "PROMPT" "B64" =
      [ { role := "user",
          content := MessageContent.parts
            [ ContentPart.text "PROMPT",
              ContentPart.image_url ("data:image/png;base64," ++ "B64") ] } ] ∧
    openrouter_messages "deepseek/deepseek-r1" "PROMPT" "B64" =
      [ { role := "user",
          content := MessageContent.plain
            ("Based on this CAD drawing analysis prompt:\n\n" ++ "PROMPT" ++
              "\n\nProvide a detailed technical response.") } ] := by
  refine ⟨(c7_vision_gating "xiaomi/mimo-v2-flash:free" "PROMPT" "B64").1 (by decide), ?_⟩
  exact ((c7_vision_gating "deepseek/deepseek-r1" "PROMPT" "B64").2 (by decide)).1

/-- C10: canonicalization always converts to RGB mode and always
re-encodes as PNG, whatever the source mode and format were. -/
theorem c10_canonical_format (img : PILImage) :
    (preprocess_image img).format = "PNG" ∧ (preprocess_image img).mode = "RGB" := by
  unfold preprocess_image
  by_cases h : img.mode = "RGB" <;> simp [h] <;> split <;> simp [h]

/-- Round-to-nearest never moves a value down by more than half. -/
theorem rne_ge (x : ℚ) : x - 1 / 2 ≤ (rne x : ℚ) := by
  unfold rne
  have h1 : (Int.floor x : ℚ) ≤ x := Int.floor_le x
  have h2 : x < Int.floor x + 1 := Int.lt_floor_add_one x
  split_ifs with ha hb hc <;> push_cast <;> linarith

/-- Round-to-nearest never moves a value up by more than half. -/
theorem rne_le (x : ℚ) : (rne x : ℚ) ≤ x + 1 / 2 := by
  unfold rne
  have h1 : (Int.floor x : ℚ) ≤ x := Int.floor_le x
  have h2 : x < Int.floor x + 1 := Int.lt_floor_add_one x
  split_ifs with ha hb hc <;> push_cast <;> linarith

/-- Correct rounding to 53 bits changes a positive value by at most one
part in 2 ^ 53 (the unit-roundoff bound for binary64). -/
theorem fl64_bounds (q : ℚ) (hq : 0 < q) :
    q - q / 2 ^ (53 : ℕ) ≤ fl64 q ∧ fl64 q ≤ q + q / 2 ^ (53 : ℕ) := by
  unfold fl64
  rw [if_pos hq]
  set e := Int.log 2 q with he
  set s : ℚ := 2 ^ ((52 : ℤ) - e) with hs
  set s2 : ℚ := 2 ^ (e - (52 : ℤ)) with hs2
  have hspos : 0 < s := by rw [hs]; positivity
  have hs2pos : 0 < s2 := by rw [hs2]; positivity
  have hss2 : s * s2 = 1 := by
    rw [hs, hs2, ← zpow_add₀ (by norm_num : (2 : ℚ) ≠ 0)]
    norm_num
  have h2e : (2 : ℚ) ^ e ≤ q := by
    have hlog := Int.zpow_log_le_self (b := 2) (r := q) one_lt_two hq
    rw [he]
    exact_mod_cast hlog
  have hs2small : s2 / 2 ≤ q / 2 ^ (53 : ℕ) := by
    have hv1 : s2 / 2 = (2 : ℚ) ^ (e - 53) := by
      rw [hs2, div_eq_mul_inv, ← zpow_neg_one,
        ← zpow_add₀ (by norm_num : (2 : ℚ) ≠ 0)]
      congr 1
      omega
    have hv2 : (2 : ℚ) ^ (e - 53) = 2 ^ e / 2 ^ (53 : ℕ) := by
      rw [zpow_sub₀ (by norm_num : (2 : ℚ) ≠ 0)]
      norm_num
    rw [hv1, hv2]
    gcongr
  have hr1 := rne_ge (q * s)
  have hr2 := rne_le (q * s)
  have hmul1 : (q * s - 1 / 2) * s2 ≤ (rne (q * s) : ℚ) * s2 :=
    mul_le_mul_of_nonneg_right hr1 (le_of_lt hs2pos)
  have hmul2 : (rne (q * s) : ℚ) * s2 ≤ (q * s + 1 / 2) * s2 :=
    mul_le_mul_of_nonneg_right hr2 (le_of_lt hs2pos)
  have hexp1 : (q * s - 1 / 2) * s2 = q * (s * s2) - s2 / 2 := by ring
  have hexp2 : (q * s + 1 / 2) * s2 = q * (s * s2) + s2 / 2 := by ring
  rw [hexp1, hss2, mul_one] at hmul1
  rw [hexp2, hss2, mul_one] at hmul2
  constructor <;> linarith

/-- The resized dimension computed by the source in binary64 arithmetic
is within one pixel (up to a 2 ^ -39 rounding margin) of the exact
proportional value `dim * 4096 / m`. -/
theorem pyResizeDim_bounds (dim m : Nat) (hdim : 0 < dim) (hm : 4096 < m)
    (hdm : dim ≤ m) :
    (dim : ℚ) * 4096 / (m : ℚ) - 1 - 1 / 2 ^ (39 : ℕ) < (pyResizeDim dim m : ℚ) ∧
    (pyResizeDim dim m : ℚ) ≤ (dim : ℚ) * 4096 / (m : ℚ) + 1 / 2 ^ (39 : ℕ) := by
  have hmQ : (0 : ℚ) < m := by
    have : (0 : ℕ) < m := by omega
    exact_mod_cast this
  have hdQ : (0 : ℚ) < dim := by exact_mod_cast hdim
  set r0 : ℚ := (4096 : ℚ) / (m : ℚ) with hr0def
  have hr0 : 0 < r0 := by rw [hr0def]; positivity
  obtain ⟨hb1, hb2⟩ := fl64_bounds r0 hr0
  have hr0div : r0 / 2 ^ (53 : ℕ) < r0 := div_lt_self hr0 (by norm_num)
  have hrtpos : 0 < fl64 r0 := by linarith
  set ex : ℚ := (dim : ℚ) * 4096 / (m : ℚ) with hexdef
  have hexeq : ex = (dim : ℚ) * r0 := by rw [hexdef, hr0def]; ring
  have hexle : ex ≤ 4096 := by
    rw [hexdef, div_le_iff₀ hmQ]
    have hc : (dim : ℚ) ≤ (m : ℚ) := by exact_mod_cast hdm
    nlinarith
  have hexpos : 0 < ex := by rw [hexeq]; exact mul_pos hdQ hr0
  set p0 : ℚ := (dim : ℚ) * fl64 r0 with hp0def
  have hp0pos : 0 < p0 := mul_pos hdQ hrtpos
  have hp0lb : ex - ex / 2 ^ (53 : ℕ) ≤ p0 := by
    have hstep := mul_le_mul_of_nonneg_left hb1 (le_of_lt hdQ)
    have hchain : ex - ex / 2 ^ (53 : ℕ) = (dim : ℚ) * (r0 - r0 / 2 ^ (53 : ℕ)) := by
      rw [hexeq]; ring
    rw [hchain, hp0def]
    exact hstep
  have hp0ub : p0 ≤ ex + ex / 2 ^ (53 : ℕ) := by
    have hstep := mul_le_mul_of_nonneg_left hb2 (le_of_lt hdQ)
    have hchain : ex + ex / 2 ^ (53 : ℕ) = (dim : ℚ) * (r0 + r0 / 2 ^ (53 : ℕ)) := by
      rw [hexeq]; ring
    rw [hchain, hp0def]
    exact hstep
  have hexdiv : ex / 2 ^ (53 : ℕ) ≤ 4096 / 2 ^ (53 : ℕ) := by gcongr
  have hp0le : p0 ≤ 4097 := by
    have hsmall : (4096 : ℚ) / 2 ^ (53 : ℕ) ≤ 1 := by norm_num
    linarith
  obtain ⟨hb3, hb4⟩ := fl64_bounds p0 hp0pos
  have hp0div : p0 / 2 ^ (53 : ℕ) ≤ 4097 / 2 ^ (53 : ℕ) := by gcongr
  have hnum : (4096 : ℚ) / 2 ^ (53 : ℕ) + 4097 / 2 ^ (53 : ℕ) ≤ 1 / 2 ^ (39 : ℕ) := by
    norm_num
  have hp0divpos : p0 / 2 ^ (53 : ℕ) < p0 := div_lt_self hp0pos (by norm_num)
  have hkey1 : ex - 1 / 2 ^ (39 : ℕ) ≤ fl64 p0 := by linarith
  have hkey2 : fl64 p0 ≤ ex + 1 / 2 ^ (39 : ℕ) := by linarith
  have hprodpos : 0 ≤ fl64 p0 := by linarith
  have hfl1 : (Int.floor (fl64 p0) : ℚ) ≤ fl64 p0 := Int.floor_le _
  have hfl2 : fl64 p0 - 1 < (Int.floor (fl64 p0) : ℚ) := by
    linarith [Int.lt_floor_add_one (fl64 p0)]
  have hfge : 0 ≤ Int.floor (fl64 p0) := Int.floor_nonneg.mpr hprodpos
  have hcast : ((pyResizeDim dim m : ℕ) : ℚ) = (Int.floor (fl64 p0) : ℚ) := by
    unfold pyResizeDim
    rw [← hr0def, ← hp0def]
    have htn : ((Int.floor (fl64 p0)).toNat : ℤ) = Int.floor (fl64 p0) :=
      Int.toNat_of_nonneg hfge
    exact_mod_cast htn
  constructor
  · rw [hcast]; linarith
  · rw [hcast]; linarith

/-- Floor-log uniqueness: the binary exponent bracketing a positive
value determines `Int.log 2`. -/
theorem int_log2_eq (q : ℚ) (e : ℤ) (hq : 0 < q)
    (h1 : (2 : ℚ) ^ e ≤ q) (h2 : q < (2 : ℚ) ^ (e + 1)) : Int.log 2 q = e := by
  have ha : e ≤ Int.log 2 q := by
    rw [← Int.zpow_le_iff_le_log one_lt_two hq]
    exact_mod_cast h1
  have hb : Int.log 2 q < e + 1 := by
    rw [← Int.lt_zpow_iff_log_lt one_lt_two hq]
    exact_mod_cast h2
  omega

/-- Evaluating `rne` when the value rounds down. -/
theorem rne_eq_of_floor (x : ℚ) (f : ℤ) (hf : Int.floor x = f)
    (hlt : x - (f : ℚ) < 1 / 2) : rne x = f := by
  unfold rne
  rw [hf, if_pos hlt]

/-- Evaluating `fl64` from the floor-log and the rounded significand. -/
theorem fl64_eval (q : ℚ) (e k : ℤ) (hq : 0 < q)
    (hlog : Int.log 2 q = e) (hrne : rne (q * 2 ^ ((52 : ℤ) - e)) = k) :
    fl64 q = (k : ℚ) * 2 ^ (e - (52 : ℤ)) := by
  unfold fl64
  rw [if_pos hq, hlog, hrne]

/-- The binary64 evaluation of `int(6272 * (4096 / 6272))`: the division
`4096 / 6272 = 32 / 49` rounds to `5882252574524729 * 2 ^ -53` (just
below the exact value), the multiplication by `6272` rounds again to
`9007199254740991 * 2 ^ -41 = 4095.9999999999995...`, and the `int`
truncation yields 4095, not 4096. -/
theorem pyResizeDim_6272 : pyResizeDim 6272 6272 = 4095 := by
  have hq1 : (0 : ℚ) < (4096 : ℚ) / (6272 : ℚ) := by norm_num
  have hlog1 : Int.log 2 ((4096 : ℚ) / (6272 : ℚ)) = -1 := by
    apply int_log2_eq _ _ hq1 <;> norm_num
  have hx1 : (4096 : ℚ) / 6272 * 2 ^ ((52 : ℤ) - (-1)) = 288230376151711744 / 49 := by
    rw [show (52 : ℤ) - (-1) = 53 by norm_num]
    norm_num
  have hf1 : Int.floor ((288230376151711744 : ℚ) / 49) = 5882252574524729 := by
    norm_num
  have hrne1 : rne ((4096 : ℚ) / 6272 * 2 ^ ((52 : ℤ) - (-1))) = 5882252574524729 := by
    rw [hx1]
    apply rne_eq_of_floor _ _ hf1
    norm_num
  have hfl1 : fl64 ((4096 : ℚ) / 6272) =
      (5882252574524729 : ℚ) * 2 ^ ((-1 : ℤ) - 52) :=
    fl64_eval _ _ _ hq1 hlog1 hrne1
  have hfl1v : fl64 ((4096 : ℚ) / 6272) = 5882252574524729 / 9007199254740992 := by
    rw [hfl1]
    norm_num
  have hp0 : (6272 : ℚ) * ((5882252574524729 : ℚ) / 9007199254740992) =
      288230376151711721 / 70368744177664 := by norm_num
  have hq2 : (0 : ℚ) < (288230376151711721 : ℚ) / 70368744177664 := by norm_num
  have hlog2 : Int.log 2 ((288230376151711721 : ℚ) / 70368744177664) = 11 := by
    apply int_log2_eq _ _ hq2 <;> norm_num
  have hx2 : (288230376151711721 : ℚ) / 70368744177664 * 2 ^ ((52 : ℤ) - 11) =
      288230376151711721 / 32 := by
    rw [show (52 : ℤ) - 11 = 41 by norm_num]
    norm_num
  have hf2 : Int.floor ((288230376151711721 : ℚ) / 32) = 9007199254740991 := by
    norm_num
  have hrne2 : rne ((288230376151711721 : ℚ) / 70368744177664 * 2 ^ ((52 : ℤ) - 11)) =
      9007199254740991 := by
    rw [hx2]
    apply rne_eq_of_floor _ _ hf2
    norm_num
  have hfl2 : fl64 ((288230376151711721 : ℚ) / 70368744177664) =
      (9007199254740991 : ℚ) * 2 ^ ((11 : ℤ) - 52) :=
    fl64_eval _ _ _ hq2 hlog2 hrne2
  have hfl2v : fl64 ((288230376151711721 : ℚ) / 70368744177664) =
      9007199254740991 / 2199023255552 := by
    rw [hfl2]
    norm_num
  have hf3 : Int.floor ((9007199254740991 : ℚ) / 2199023255552) = 4095 := by
    norm_num
  unfold pyResizeDim
  rw [show ((6272 : ℕ) : ℚ) = (6272 : ℚ) by norm_num, hfl1v, hp0, hfl2v, hf3]
  rfl

/-- The output width of `preprocess_image` as a function of the resize
condition (the mode branch never changes the dimensions). -/
theorem preprocess_image_width (img : PILImage) :
    (preprocess_image img).width =
      if 4096 < max img.width img.height
      then pyResizeDim img.width (max img.width img.height)
      else img.width := by
  unfold preprocess_image max_size
  by_cases h : img.mode = "RGB" <;>
    by_cases h2 : 4096 < max img.width img.height <;>
      simp [h, h2]

/-- The output height of `preprocess_image` as a function of the resize
condition. -/
theorem preprocess_image_height (img : PILImage) :
    (preprocess_image img).height =
      if 4096 < max img.width img.height
      then pyResizeDim img.height (max img.width img.height)
      else img.height := by
  unfold preprocess_image max_size
  by_cases h : img.mode = "RGB" <;>
    by_cases h2 : 4096 < max img.width img.height <;>
      simp [h, h2]

/-- C8 is false on the code: a valid 6272 x 6272 image has longer side
greater than 4096, yet the canonicalized output's longer side is 4095,
not exactly 4096 - binary64 rounding loses one pixel. -/
theorem c8_counterexample :
    4096 < max (6272 : ℕ) 6272 ∧
    (preprocess_image { mode := "RGB", width := 6272, height := 6272 }).width = 4095 ∧
    (preprocess_image { mode := "RGB", width := 6272, height := 6272 }).height = 4095 ∧
    max (preprocess_image { mode := "RGB", width := 6272, height := 6272 }).width
      (preprocess_image { mode := "RGB", width := 6272, height := 6272 }).height ≠ 4096 := by
  have hw := preprocess_image_width { mode := "RGB", width := 6272, height := 6272 }
  have hh := preprocess_image_height { mode := "RGB", width := 6272, height := 6272 }
  rw [if_pos (by norm_num)] at hw hh
  have hmax : max (6272 : ℕ) 6272 = 6272 := by norm_num
  rw [hmax] at hw hh
  have hw4095 : (preprocess_image { mode := "RGB", width := 6272, height := 6272 }).width
      = 4095 := by rw [hw]; exact pyResizeDim_6272
  have hh4095 : (preprocess_image { mode := "RGB", width := 6272, height := 6272 }).height
      = 4095 := by rw [hh]; exact pyResizeDim_6272
  refine ⟨by norm_num, hw4095, hh4095, ?_⟩
  rw [hw4095, hh4095]
  norm_num

/-- C8 amended: at most 4096 on the longer side means no resize (both
dimensions and hence the aspect ratio are preserved exactly); above
4096 the output's longer side is 4095 or 4096 (exactly 4096 can be
missed by one pixel through binary64 rounding, as the counterexample
shows), and each output dimension is within one pixel - up to a
2 ^ -39 rounding margin - of the exact ratio-preserving value. -/
theorem c8_amended (img : PILImage) :
    (max img.width img.height ≤ 4096 →
      (preprocess_image img).width = img.width ∧
      (preprocess_image img).height = img.height) ∧
    (4096 < max img.width img.height → 0 < img.width → 0 < img.height →
      (4095 ≤ max (preprocess_image img).width (preprocess_image img).height ∧
        max (preprocess_image img).width (preprocess_image img).height ≤ 4096) ∧
      ((img.width : ℚ) * 4096 / ((max img.width img.height : ℕ) : ℚ) - 1 - 1 / 2 ^ (39 : ℕ) <
          ((preprocess_image img).width : ℚ) ∧
        ((preprocess_image img).width : ℚ) ≤
          (img.width : ℚ) * 4096 / ((max img.width img.height : ℕ) : ℚ) + 1 / 2 ^ (39 : ℕ)) ∧
      ((img.height : ℚ) * 4096 / ((max img.width img.height : ℕ) : ℚ) - 1 - 1 / 2 ^ (39 : ℕ) <
          ((preprocess_image img).height : ℚ) ∧
        ((preprocess_image img).height : ℚ) ≤
          (img.height : ℚ) * 4096 / ((max img.width img.height : ℕ) : ℚ) + 1 / 2 ^ (39 : ℕ))) := by
  constructor
  · intro hle
    rw [preprocess_image_width, preprocess_image_height,
      if_neg (by omega), if_neg (by omega)]
    exact ⟨rfl, rfl⟩
  · intro hgt hw hh
    have hwm : img.width ≤ max img.width img.height := le_max_left _ _
    have hhm : img.height ≤ max img.width img.height := le_max_right _ _
    have hwq := pyResizeDim_bounds img.width (max img.width img.height) hw hgt hwm
    have hhq := pyResizeDim_bounds img.height (max img.width img.height) hh hgt hhm
    have hWidth : (preprocess_image img).width =
        pyResizeDim img.width (max img.width img.height) := by
      rw [preprocess_image_width, if_pos hgt]
    have hHeight : (preprocess_image img).height =
        pyResizeDim img.height (max img.width img.height) := by
      rw [preprocess_image_height, if_pos hgt]
    have hmQ : (0 : ℚ) < ((max img.width img.height : ℕ) : ℚ) := by
      have hp : 0 < max img.width img.height := by omega
      exact_mod_cast hp
    have hub : ∀ d : ℕ, 0 < d → d ≤ max img.width img.height →
        pyResizeDim d (max img.width img.height) ≤ 4096 := by
      intro d hd hdm2
      have hq := (pyResizeDim_bounds d (max img.width img.height) hd hgt hdm2).2
      have hexle : (d : ℚ) * 4096 / ((max img.width img.height : ℕ) : ℚ) ≤ 4096 := by
        rw [div_le_iff₀ hmQ]
        have hc : (d : ℚ) ≤ ((max img.width img.height : ℕ) : ℚ) := by exact_mod_cast hdm2
        nlinarith
      have hlt : ((pyResizeDim d (max img.width img.height) : ℕ) : ℚ) < 4097 := by
        have hsmall : (1 : ℚ) / 2 ^ (39 : ℕ) < 1 := by norm_num
        linarith
      have hltn : pyResizeDim d (max img.width img.height) < 4097 := by exact_mod_cast hlt
      omega
    have hmex : ((max img.width img.height : ℕ) : ℚ) * 4096 /
        ((max img.width img.height : ℕ) : ℚ) = 4096 := by
      rw [mul_comm, mul_div_assoc, div_self (ne_of_gt hmQ), mul_one]
    have hlb : 4095 ≤ pyResizeDim (max img.width img.height) (max img.width img.height) := by
      have hq := (pyResizeDim_bounds (max img.width img.height) (max img.width img.height)
        (by omega) hgt le_rfl).1
      rw [hmex] at hq
      have hgtq : (4094 : ℚ) <
          ((pyResizeDim (max img.width img.height) (max img.width img.height) : ℕ) : ℚ) := by
        have hsmall : (1 : ℚ) / 2 ^ (39 : ℕ) < 1 := by norm_num
        linarith
      have hgtn : 4094 < pyResizeDim (max img.width img.height) (max img.width img.height) := by
        exact_mod_cast hgtq
      omega
    refine ⟨⟨?_, ?_⟩, ?_, ?_⟩
    · rcases max_cases img.width img.height with ⟨hc, _⟩ | ⟨hc, _⟩
      · have : 4095 ≤ (preprocess_image img).width := by
          rw [hWidth]
          calc 4095 ≤ pyResizeDim (max img.width img.height) (max img.width img.height) := hlb
          _ = pyResizeDim img.width (max img.width img.height) := by rw [hc]
        omega
      · have : 4095 ≤ (preprocess_image img).height := by
          rw [hHeight]
          calc 4095 ≤ pyResizeDim (max img.width img.height) (max img.width img.height) := hlb
          _ = pyResizeDim img.height (max img.width img.height) := by rw [hc]
        omega
    · have h1 : (preprocess_image img).width ≤ 4096 := by
        rw [hWidth]; exact hub _ hw hwm
      have h2 : (preprocess_image img).height ≤ 4096 := by
        rw [hHeight]; exact hub _ hh hhm
      omega
    · rw [hWidth]; exact hwq
    · rw [hHeight]; exact hhq

/-- Witness for C8 amended: the no-resize branch at a 640 x 480 image
and the bounded-longer-side conclusion at the 6272 x 6272 image. -/
theorem c8_amended_witness :
    ((preprocess_image imgOk).width = imgOk.width ∧
      (preprocess_image imgOk).height = imgOk.height) ∧
    (4095 ≤ max (preprocess_image { mode := "RGB", width := 6272, height := 6272 }).width
        (preprocess_image { mode := "RGB", width := 6272, height := 6272 }).height ∧
      max (preprocess_image { mode := "RGB", width := 6272, height := 6272 }).width
        (preprocess_image { mode := "RGB", width := 6272, height := 6272 }).height ≤ 4096) := by
  refine ⟨(c8_amended imgOk).1 (by decide), ?_⟩
  exact ((c8_amended { mode := "RGB", width := 6272, height := 6272 }).2
    (by decide) (by decide) (by decide)).1
